import Mathlib

/-!
Shallow embedding of the real-time session layer of the Novara backend
(src/api/index.js): connection authentication and presence (lines 79-99),
typing indicators (lines 101-107), the sendFile flow (lines 109-146), the
markAsSeen flow (lines 148-166) and disconnect (lines 168-174).

JavaScript objects whose fields may be absent are modelled with `Option`
(`none` = the key is not present / the value is `undefined`); JS truthiness
of such fields is made explicit. The process-wide `onlineUsers` `Set` is a
duplicate-free insertion-ordered list. The MongoDB-backed `ChatSession`
collection is a list of documents keyed by the sorted participant pair;
a persistence write that may fail is modelled by a `saveOk` flag.
-/

namespace Novara

/-- One live transport session: its socket id and the user identity bound at
authentication time (`socket.userId`), `none` when authentication never
succeeded. -/
structure Socket where
  sid : Nat
  userId : Option String
deriving DecidableEq, Repr

/-- A chat message as the object literal `newMessage` built by the `sendFile`
handler (src/api/index.js lines 128-136) shapes it. `seen` is `Option Bool`
because the raw literal carries no `seen` key at all (`none` = field absent);
documents in the store carry `some` after the schema default is applied. -/
structure Message where
  senderId : String
  receiverId : String
  fileData : String
  fileName : String
  fileType : String
  isFile : Bool
  timestamp : Nat
  seen : Option Bool
deriving DecidableEq, Repr

/-- A `ChatSession` document: the sorted participant pair and the ordered
message list. -/
structure ChatSession where
  participants : List String
  messages : List Message
deriving DecidableEq, Repr

/-- The events the server emits to clients. -/
inductive ServerEvent where
  | userOnline (userId : String)
  | userOffline (userId : String)
  | onlineUsersSnapshot (users : List String)
  | typing (senderId receiverId : String)
  | stopTyping (senderId receiverId : String)
  | receiveFile (msg : Message)
  | messageSeen (senderId receiverId : String)
deriving DecidableEq, Repr

/-- The audience of one emission: `io.emit` (all), `io.to(room).emit`,
`socket.to(room).emit` (room minus the emitting socket), `socket.emit`
(exactly one socket). -/
inductive Target where
  | all
  | room (userId : String)
  | roomExceptSelf (userId : String) (sid : Nat)
  | socket (sid : Nat)
deriving DecidableEq, Repr

/-- One emission: target audience paired with the event. -/
abbrev Emitted := Target × ServerEvent

/-- Process-wide server state: the `onlineUsers` set, the live sockets, and
the `ChatSession` collection. -/
structure ServerState where
  onlineUsers : List String
  sockets : List Socket
  store : List ChatSession
deriving DecidableEq, Repr

/-- JS `Set.prototype.add`: keeps insertion order, no-op when present. -/
def setAdd (s : List String) (x : String) : List String :=
  if x ∈ s then s else s ++ [x]

/-- JS `Set.prototype.delete`. -/
def setDelete (s : List String) (x : String) : List String :=
  s.filter (fun y => y ≠ x)

/-- Outcome of `jwt.verify` (line 87): the decoded `userId`, or a thrown
verification error (invalid signature / expired / malformed). -/
inductive AuthError where
  | invalidSignature
  | expired
  | malformed
deriving DecidableEq, Repr

/-- Body of `io.on('connection')`, lines 84-99: verify the handshake token;
on success set `socket.userId`, `socket.join(userId)`, add the identity to
`onlineUsers`, `io.emit('userOnline')` to all, and `socket.emit('onlineUsers')`
the snapshot (spread of the set after the add) to the new socket only. On a
verification error: log, `socket.disconnect()`, return - no state change and
no emission. -/
def handleConnection (st : ServerState) (sid : Nat)
    (verified : Except AuthError String) : ServerState × List Emitted :=
  match verified with
  | .error _ => (st, [])
  | .ok uid =>
      let users := setAdd st.onlineUsers uid
      ({ st with
          onlineUsers := users,
          sockets := st.sockets ++ [⟨sid, some uid⟩] },
       [(Target.all, ServerEvent.userOnline uid),
        (Target.socket sid, ServerEvent.onlineUsersSnapshot users)])

/-- Body of `socket.on('disconnect')`, lines 168-174, together with the
transport removing the socket from the live list: when `socket.userId` is
set, delete it from `onlineUsers` and `io.emit('userOffline')`;
otherwise nothing. -/
def handleDisconnect (st : ServerState) (sock : Socket) :
    ServerState × List Emitted :=
  let st' := { st with sockets := st.sockets.filter (fun s => s.sid ≠ sock.sid) }
  match sock.userId with
  | some uid =>
      ({ st' with onlineUsers := setDelete st'.onlineUsers uid },
       [(Target.all, ServerEvent.userOffline uid)])
  | none => (st', [])

/-- Payload of `typing` / `stopTyping` as destructured by the handlers
(lines 101, 105): only `receiverId` is read. -/
structure TypingPayload where
  receiverId : String
deriving DecidableEq, Repr

/-- Body of `socket.on('typing')`, lines 101-103: `socket.to(receiverId)`
gets `typing` with `senderId` taken from `socket.userId`. -/
def handleTyping (uid : String) (sid : Nat) (p : TypingPayload) : List Emitted :=
  [(Target.roomExceptSelf p.receiverId sid, ServerEvent.typing uid p.receiverId)]

/-- Body of `socket.on('stopTyping')`, lines 105-107. -/
def handleStopTyping (uid : String) (sid : Nat) (p : TypingPayload) : List Emitted :=
  [(Target.roomExceptSelf p.receiverId sid, ServerEvent.stopTyping uid p.receiverId)]

/-- Payload of `sendFile` as destructured at line 109; every field may be
absent. Note the payload has no `senderId` field at all. -/
structure SendFilePayload where
  receiverId : Option String
  fileData : Option String
  fileName : Option String
  fileType : Option String
deriving DecidableEq, Repr

/-- Payload of `markAsSeen` as destructured at line 148. -/
structure MarkAsSeenPayload where
  senderId : String
deriving DecidableEq, Repr

/-- A JavaScript exception escaping a handler. -/
inductive JsError where
  | typeError (msg : String)
deriving DecidableEq, Repr

/-- Lexicographic code-point comparison of char lists, the order JS
`Array.prototype.sort` applies to strings. -/
def charsLt : List Char → List Char → Bool
  | [], [] => false
  | [], _ :: _ => true
  | _ :: _, [] => false
  | a :: as, b :: bs =>
      if a.toNat < b.toNat then true
      else if b.toNat < a.toNat then false
      else charsLt as bs

/-- JS `a < b` on strings. -/
def strLt (a b : String) : Bool := charsLt a.data b.data

/-- JS `[a, b].sort()` on two strings: the smaller string first; with two
elements the result is independent of the argument order. -/
def sortPair (a b : String) : List String :=
  if strLt b a then [b, a] else [a, b]

/-- `ChatSession.findOne({ participants })`: first stored document whose key
equals the sorted pair. -/
def findSession (store : List ChatSession) (ps : List String) :
    Option ChatSession :=
  store.find? (fun s => s.participants = ps)

/-- `session.save()` on the document collection: replace the first stored
document with the same participant key, or insert the new document. -/
def saveSession (store : List ChatSession) (cs : ChatSession) :
    List ChatSession :=
  match store with
  | [] => [cs]
  | s :: rest =>
      if s.participants = cs.participants then cs :: rest
      else s :: saveSession rest cs

/-- Modelled from the spec: the message schema of `models/ChatSession`
(required at src/api/index.js line 13 but not present under src/) declares
`seen: bool (default false)`; persisting a raw message object that lacks a
`seen` key stores it with `seen = false`. -/
def applySchemaDefault (m : Message) : Message :=
  { m with seen := some (m.seen.getD false) }

/-- The `newMessage` object literal, lines 128-136: sender taken from
`socket.userId`, `isFile: true`, current timestamp, and no `seen` key. -/
def newMessage (uid rid fd fn ft : String) (ts : Nat) : Message :=
  { senderId := uid, receiverId := rid, fileData := fd, fileName := fn,
    fileType := ft, isFile := true, timestamp := ts, seen := none }

/-- The session document as persisted by a successful `sendFile` (lines
122-138): the found session - or a fresh one for the sorted pair - with the
new message appended; the stored copy carries the schema default. -/
def sendFileStored (st : ServerState) (uid rid fd fn ft : String) (ts : Nat) :
    ChatSession :=
  let key := sortPair uid rid
  let session := (findSession st.store key).getD ⟨key, []⟩
  { session with
      messages := session.messages ++ [applySchemaDefault (newMessage uid rid fd fn ft ts)] }

/-- Body of `socket.on('sendFile')`, lines 109-146. Line 114 reads
`fileData.length` before any validation, so an absent `fileData` throws a
`TypeError` out of the (async) handler: modelled as `.error`. Otherwise the
check at line 116 drops the event when any required field is falsy. A valid
event finds or creates the session for the sorted pair, appends the new
message (the stored copy gets the schema default applied), awaits
`session.save()` (success modelled by `saveOk`), and only on success emits
`receiveFile` carrying the raw `newMessage` to the receiver's room and the
sender's own room; a save failure is caught and only logged. -/
def handleSendFile (st : ServerState) (uid : String) (ts : Nat)
    (p : SendFilePayload) (saveOk : Bool) :
    Except JsError (ServerState × List Emitted) :=
  match p.fileData with
  | none => .error (.typeError "Cannot read properties of undefined (reading length)")
  | some fd =>
      match p.receiverId, p.fileName, p.fileType with
      | some rid, some fn, some ft =>
          if rid = "" ∨ fd = "" ∨ fn = "" ∨ ft = "" then
            .ok (st, [])
          else
            if saveOk then
              .ok ({ st with
                      store := saveSession st.store (sendFileStored st uid rid fd fn ft ts) },
                   [(Target.room rid, ServerEvent.receiveFile (newMessage uid rid fd fn ft ts)),
                    (Target.room uid, ServerEvent.receiveFile (newMessage uid rid fd fn ft ts))])
            else
              .ok (st, [])
      | _, _, _ => .ok (st, [])

/-- JS truthiness of `msg.seen` (an optional boolean field). -/
def seenTruthy : Option Bool → Bool
  | some b => b
  | none => false

/-- Body of the `map` callback at lines 154-159: flip `seen` when the
message is authored by the named sender and `!msg.seen`. -/
def markSeenOne (senderId : String) (m : Message) : Message :=
  if m.senderId = senderId ∧ ¬ seenTruthy m.seen then { m with seen := some true }
  else m

/-- The reassignment `session.messages = session.messages.map(...)` at
lines 154-159. -/
def markSeenSession (senderId : String) (session : ChatSession) : ChatSession :=
  { session with messages := session.messages.map (markSeenOne senderId) }

/-- Body of `socket.on('markAsSeen')`, lines 148-166: the receiver is
`socket.userId`; look up the session for the sorted pair; when absent do
nothing; when present map `markSeenOne` over the messages, await
`session.save()` (success modelled by `saveOk`), and only on success emit
`messageSeen {senderId, receiverId}` to the sender's room; a save failure is
caught and only logged. -/
def handleMarkAsSeen (st : ServerState) (uid : String)
    (p : MarkAsSeenPayload) (saveOk : Bool) : ServerState × List Emitted :=
  let key := sortPair p.senderId uid
  match findSession st.store key with
  | none => (st, [])
  | some session =>
      if saveOk then
        ({ st with store := saveSession st.store (markSeenSession p.senderId session) },
         [(Target.room p.senderId, ServerEvent.messageSeen p.senderId uid)])
      else
        (st, [])

/-- The empty initial state: no one online, no sockets, empty collection. -/
def st0 : ServerState := ⟨[], [], []⟩

/-- The sender-attribution check used to formalise claim C10: a `typing`,
`stopTyping` or `receiveFile` emission names the bound identity as sender,
and a `messageSeen` emission names it as receiver; other events are
unconstrained. -/
def eventSenderBound (uid : String) : ServerEvent → Bool
  | .typing s _ => s = uid
  | .stopTyping s _ => s = uid
  | .receiveFile m => m.senderId = uid
  | .messageSeen _ r => r = uid
  | _ => true

/-- All emissions of a list pass `eventSenderBound`. -/
def emitsSenderBound (uid : String) (l : List Emitted) : Bool :=
  l.all (fun te => eventSenderBound uid te.2)

/-- All messages of all stored sessions, in order. -/
def storeMessages (store : List ChatSession) : List Message :=
  store.flatMap ChatSession.messages

theorem mem_setAdd_self (s : List String) (x : String) : x ∈ setAdd s x := by
  unfold setAdd
  by_cases h : x ∈ s
  · simp [h]
  · simp [h]

theorem mem_setAdd_iff (s : List String) (x y : String) :
    y ∈ setAdd s x ↔ y ∈ s ∨ y = x := by
  unfold setAdd
  by_cases h : x ∈ s
  · simp only [if_pos h]
    constructor
    · exact Or.inl
    · rintro (hy | rfl)
      · exact hy
      · exact h
  · simp [if_neg h]

theorem not_mem_setDelete_self (s : List String) (x : String) :
    x ∉ setDelete s x := by
  unfold setDelete
  intro h
  have := List.of_mem_filter h
  simp at this

theorem charsLt_asymm : ∀ as bs, charsLt as bs = true → charsLt bs as = false
  | [], [], h => Bool.noConfusion h
  | [], _ :: _, _ => rfl
  | _ :: _, [], h => Bool.noConfusion h
  | a :: as, b :: bs, h => by
      simp only [charsLt] at h ⊢
      by_cases hab : a.toNat < b.toNat
      · rw [if_neg (Nat.lt_asymm hab), if_pos hab]
      · rw [if_neg hab] at h
        by_cases hba : b.toNat < a.toNat
        · rw [if_pos hba] at h
          cases h
        · rw [if_neg hba] at h
          rw [if_neg hba, if_neg hab]
          exact charsLt_asymm as bs h

theorem charsLt_antisymm_eq :
    ∀ as bs, charsLt as bs = false → charsLt bs as = false → as = bs
  | [], [], _, _ => rfl
  | [], _ :: _, h1, _ => Bool.noConfusion h1
  | _ :: _, [], _, h2 => Bool.noConfusion h2
  | a :: as, b :: bs, h1, h2 => by
      simp only [charsLt] at h1 h2
      by_cases hab : a.toNat < b.toNat
      · rw [if_pos hab] at h1
        cases h1
      · by_cases hba : b.toNat < a.toNat
        · rw [if_pos hba] at h2
          cases h2
        · rw [if_neg hab, if_neg hba] at h1
          rw [if_neg hba, if_neg hab] at h2
          have hc : a = b := by
            have hn : a.toNat = b.toNat :=
              Nat.le_antisymm (Nat.le_of_not_lt hba) (Nat.le_of_not_lt hab)
            have h' := congrArg Char.ofNat hn
            rwa [Char.ofNat_toNat, Char.ofNat_toNat] at h'
          rw [hc]
          exact congrArg (List.cons b) (charsLt_antisymm_eq as bs h1 h2)

theorem strLt_asymm {a b : String} (h : strLt a b = true) : strLt b a = false :=
  charsLt_asymm a.data b.data h

theorem strLt_antisymm_eq {a b : String} (h1 : strLt a b = false)
    (h2 : strLt b a = false) : a = b :=
  String.ext (charsLt_antisymm_eq a.data b.data h1 h2)

theorem sortPair_comm (a b : String) : sortPair a b = sortPair b a := by
  unfold sortPair
  by_cases h : strLt b a = true
  · rw [if_pos h, if_neg]
    rw [strLt_asymm h]
    exact Bool.false_ne_true
  · have h1 : strLt b a = false := Bool.eq_false_iff.mpr h
    rw [if_neg h]
    by_cases h2 : strLt a b = true
    · rw [if_pos h2]
    · have h3 : strLt a b = false := Bool.eq_false_iff.mpr h2
      rw [if_neg h2, strLt_antisymm_eq h3 h1]

theorem findSession_participants {store : List ChatSession} {ps : List String}
    {s : ChatSession} (h : findSession store ps = some s) :
    s.participants = ps := by
  have := List.find?_some h
  exact of_decide_eq_true this

theorem mem_of_findSession {store : List ChatSession} {ps : List String}
    {s : ChatSession} (h : findSession store ps = some s) : s ∈ store :=
  List.mem_of_find?_eq_some h

theorem findSession_saveSession (store : List ChatSession) (cs : ChatSession) :
    findSession (saveSession store cs) cs.participants = some cs := by
  induction store with
  | nil => simp [saveSession, findSession, List.find?]
  | cons s rest ih =>
      by_cases h : s.participants = cs.participants
      · simp [saveSession, h, findSession, List.find?]
      · simp only [saveSession, if_neg h]
        unfold findSession at ih ⊢
        rw [List.find?_cons, decide_eq_false h]
        exact ih

theorem saveSession_saveSession (store : List ChatSession) (cs : ChatSession) :
    saveSession (saveSession store cs) cs = saveSession store cs := by
  induction store with
  | nil => simp [saveSession]
  | cons s rest ih =>
      by_cases h : s.participants = cs.participants
      · simp [saveSession, h]
      · simp [saveSession, h, ih]

theorem markSeenOne_idem (s : String) (m : Message) :
    markSeenOne s (markSeenOne s m) = markSeenOne s m := by
  unfold markSeenOne
  by_cases h : m.senderId = s ∧ ¬ seenTruthy m.seen
  · rw [if_pos h, if_neg]
    rintro ⟨-, h2⟩
    exact h2 rfl
  · rw [if_neg h, if_neg h]

theorem markSeenMsgs_idem (s : String) (l : List Message) :
    (l.map (markSeenOne s)).map (markSeenOne s) = l.map (markSeenOne s) := by
  rw [List.map_map]
  exact List.map_congr_left (fun m _ => markSeenOne_idem s m)

theorem mem_storeMessages_saveSession {m : Message} (store : List ChatSession)
    (cs : ChatSession) (h : m ∈ storeMessages (saveSession store cs)) :
    m ∈ storeMessages store ∨ m ∈ cs.messages := by
  induction store with
  | nil =>
      simp [saveSession, storeMessages] at h
      exact Or.inr h
  | cons s rest ih =>
      by_cases hp : s.participants = cs.participants
      · simp only [saveSession, if_pos hp, storeMessages,
          List.flatMap_cons, List.mem_append] at h ⊢
        rcases h with h | h
        · exact Or.inr h
        · exact Or.inl (Or.inr h)
      · simp only [saveSession, if_neg hp, storeMessages,
          List.flatMap_cons, List.mem_append] at h ⊢
        rcases h with h | h
        · exact Or.inl (Or.inl h)
        · rcases ih h with h' | h'
          · exact Or.inl (Or.inr h')
          · exact Or.inr h'

theorem mem_storeMessages_of_mem {m : Message} {cs : ChatSession}
    {store : List ChatSession} (h1 : cs ∈ store) (h2 : m ∈ cs.messages) :
    m ∈ storeMessages store := by
  unfold storeMessages
  exact List.mem_flatMap.mpr ⟨cs, h1, h2⟩

theorem sendFileStored_participants (st : ServerState)
    (uid rid fd fn ft : String) (ts : Nat) :
    (sendFileStored st uid rid fd fn ft ts).participants = sortPair uid rid := by
  show ((findSession st.store (sortPair uid rid)).getD
      ⟨sortPair uid rid, []⟩).participants = sortPair uid rid
  cases hs : findSession st.store (sortPair uid rid) with
  | none => rfl
  | some s => simpa using findSession_participants hs

theorem mem_sendFileStored_messages {m : Message} (st : ServerState)
    (uid rid fd fn ft : String) (ts : Nat)
    (h : m ∈ (sendFileStored st uid rid fd fn ft ts).messages) :
    m ∈ storeMessages st.store
      ∨ m = applySchemaDefault (newMessage uid rid fd fn ft ts) := by
  have h' : m ∈ ((findSession st.store (sortPair uid rid)).getD
      ⟨sortPair uid rid, []⟩).messages
      ++ [applySchemaDefault (newMessage uid rid fd fn ft ts)] := h
  cases hs : findSession st.store (sortPair uid rid) with
  | none =>
      rw [hs] at h'
      simp at h'
      exact Or.inr h'
  | some s =>
      rw [hs] at h'
      simp only [Option.getD_some, List.mem_append, List.mem_singleton] at h'
      rcases h' with h'' | h''
      · exact Or.inl (mem_storeMessages_of_mem (mem_of_findSession hs) h'')
      · exact Or.inr h''

theorem markSeenSession_participants (s : String) (cs : ChatSession) :
    (markSeenSession s cs).participants = cs.participants := rfl

theorem markSeenSession_idem (s : String) (cs : ChatSession) :
    markSeenSession s (markSeenSession s cs) = markSeenSession s cs := by
  show ChatSession.mk cs.participants
      ((cs.messages.map (markSeenOne s)).map (markSeenOne s))
    = ChatSession.mk cs.participants (cs.messages.map (markSeenOne s))
  rw [markSeenMsgs_idem]

/-- Shared success equation of the sendFile flow: with all four fields
present and non-empty and a succeeding save, the handler stores the updated
session and emits `receiveFile` with the raw message to the receiver's room
and the sender's own room, in that order. -/
theorem sendFile_success_eq (st : ServerState) (uid rid fd fn ft : String)
    (ts : Nat) (h1 : rid ≠ "") (h2 : fd ≠ "") (h3 : fn ≠ "") (h4 : ft ≠ "") :
    handleSendFile st uid ts ⟨some rid, some fd, some fn, some ft⟩ true
      = Except.ok
          ({ st with
              store := saveSession st.store (sendFileStored st uid rid fd fn ft ts) },
           [(Target.room rid, ServerEvent.receiveFile (newMessage uid rid fd fn ft ts)),
            (Target.room uid, ServerEvent.receiveFile (newMessage uid rid fd fn ft ts))]) := by
  unfold handleSendFile
  dsimp only
  rw [if_neg (by simp [h1, h2, h3, h4])]
  rfl

/-- C1: the claim fails on the code. With two live connections for user "a",
binding the second one re-broadcasts `userOnline` (the emit at line 93 is
unconditional), and disconnecting one of the two removes "a" from the
presence set and broadcasts `userOffline` (lines 171-172 are unconditional)
even though a live connection bound to "a" remains: afterwards the state has
one socket bound to "a" but "a" is not in `onlineUsers`, refuting the
present-iff-live-connection invariant. -/
theorem C1_counterexample :
    ((handleConnection ((handleConnection st0 1 (Except.ok "a")).1) 2
        (Except.ok "a")).2
      = [(Target.all, ServerEvent.userOnline "a"),
         (Target.socket 2, ServerEvent.onlineUsersSnapshot ["a"])])
    ∧ (handleDisconnect
        ((handleConnection ((handleConnection st0 1 (Except.ok "a")).1) 2
          (Except.ok "a")).1) ⟨1, some "a"⟩).1.onlineUsers = []
    ∧ (handleDisconnect
        ((handleConnection ((handleConnection st0 1 (Except.ok "a")).1) 2
          (Except.ok "a")).1) ⟨1, some "a"⟩).1.sockets = [⟨2, some "a"⟩]
    ∧ (handleDisconnect
        ((handleConnection ((handleConnection st0 1 (Except.ok "a")).1) 2
          (Except.ok "a")).1) ⟨1, some "a"⟩).2
      = [(Target.all, ServerEvent.userOffline "a")] := by
  refine ⟨rfl, rfl, rfl, rfl⟩

/-- C1 (amended): on every successful bind the identity is added to the
presence set and a `userOnline` broadcast is emitted unconditionally, even
when the user is already online; on every disconnect of a bound connection
the identity is removed from the presence set and `userOffline` is broadcast
unconditionally, even when other live connections for the same user remain.
Presence therefore reflects the most recent bind/disconnect event, not the
live-connection count. -/
theorem C1_amended (st : ServerState) (sid : Nat) (uid : String)
    (sock : Socket) (h : sock.userId = some uid) :
    ((Target.all, ServerEvent.userOnline uid)
        ∈ (handleConnection st sid (Except.ok uid)).2
      ∧ uid ∈ (handleConnection st sid (Except.ok uid)).1.onlineUsers)
    ∧ uid ∉ (handleDisconnect st sock).1.onlineUsers
    ∧ (Target.all, ServerEvent.userOffline uid) ∈ (handleDisconnect st sock).2 := by
  refine ⟨⟨?_, ?_⟩, ?_, ?_⟩
  · simp [handleConnection]
  · simpa [handleConnection] using mem_setAdd_self st.onlineUsers uid
  · simp only [handleDisconnect, h]
    exact not_mem_setDelete_self _ uid
  · simp [handleDisconnect, h]

/-- Witness for C1_amended at concrete inputs. -/
theorem C1_amended_witness :
    (Socket.mk 1 (some "a")).userId = some "a"
    ∧ (((Target.all, ServerEvent.userOnline "a")
          ∈ (handleConnection st0 1 (Except.ok "a")).2
        ∧ "a" ∈ (handleConnection st0 1 (Except.ok "a")).1.onlineUsers)
      ∧ "a" ∉ (handleDisconnect st0 ⟨1, some "a"⟩).1.onlineUsers
      ∧ (Target.all, ServerEvent.userOffline "a")
          ∈ (handleDisconnect st0 ⟨1, some "a"⟩).2) :=
  ⟨rfl, C1_amended st0 1 "a" ⟨1, some "a"⟩ rfl⟩

/-- C2 (code bug): a `sendFile` payload with `fileData` absent makes the
handler throw a TypeError at line 114 (`fileData.length` is read before the
validation at line 116), instead of dropping the event silently as the claim
states; no message is stored and nothing is emitted, but the handler does
throw. With `fileData` present and another required field absent, the event
is dropped silently with no state change, as the claim states. -/
theorem C2_code_bug :
    handleSendFile st0 "a" 0 ⟨some "b", none, some "f.txt", some "text/plain"⟩ true
      = Except.error
          (JsError.typeError "Cannot read properties of undefined (reading length)")
    ∧ handleSendFile st0 "a" 0 ⟨none, some "data", some "f.txt", some "text/plain"⟩ true
      = Except.ok (st0, [])
    ∧ handleSendFile st0 "a" 0 ⟨some "b", some "data", none, some "text/plain"⟩ true
      = Except.ok (st0, [])
    ∧ handleSendFile st0 "a" 0 ⟨some "b", some "data", some "f.txt", none⟩ true
      = Except.ok (st0, []) :=
  ⟨rfl, rfl, rfl, rfl⟩

/-- C3: the claim fails on the code: the snapshot is built from the set
after the connecting user has been added (line 92 precedes line 94), so a
user connecting alone receives `onlineUsers {users: ["a"]}`, not
`{users: []}` as the claim states. -/
theorem C3_counterexample :
    (handleConnection st0 1 (Except.ok "a")).2
      = [(Target.all, ServerEvent.userOnline "a"),
         (Target.socket 1, ServerEvent.onlineUsersSnapshot ["a"])]
    ∧ ServerEvent.onlineUsersSnapshot ["a"]
        ≠ ServerEvent.onlineUsersSnapshot ([] : List String) :=
  ⟨rfl, by decide⟩

/-- C3 (amended): immediately after a successful bind exactly one
`onlineUsers` snapshot is emitted, addressed to the new socket only; its user
list is the presence set after the new identity was added, so it includes the
just-connected user as well as everyone else online. -/
theorem C3_amended (st : ServerState) (sid : Nat) (uid : String) :
    (handleConnection st sid (Except.ok uid)).2
      = [(Target.all, ServerEvent.userOnline uid),
         (Target.socket sid,
          ServerEvent.onlineUsersSnapshot (setAdd st.onlineUsers uid))]
    ∧ uid ∈ setAdd st.onlineUsers uid :=
  ⟨rfl, mem_setAdd_self st.onlineUsers uid⟩

/-- C4: the claim fails on the code: the `receiveFile` payload is the raw
`newMessage` object of lines 128-136, which carries no `seen` key at all, so
the emitted payload does not include `seen: false`; only the stored copy
receives `seen = false` through the schema default. At a concrete successful
sendFile the full result shows the emitted message with `seen` absent. -/
theorem C4_counterexample :
    handleSendFile st0 "a" 5 ⟨some "b", some "d", some "f.png", some "image/png"⟩ true
      = Except.ok
          (⟨[], [],
            [⟨["a", "b"],
              [⟨"a", "b", "d", "f.png", "image/png", true, 5, some false⟩]⟩]⟩,
           [(Target.room "b",
             ServerEvent.receiveFile ⟨"a", "b", "d", "f.png", "image/png", true, 5, none⟩),
            (Target.room "a",
             ServerEvent.receiveFile ⟨"a", "b", "d", "f.png", "image/png", true, 5, none⟩)])
    ∧ (Message.mk "a" "b" "d" "f.png" "image/png" true 5 none).seen ≠ some false :=
  ⟨rfl, by decide⟩

/-- C4 (amended): a successful sendFile stores the message with
`seen = false` (applied by the schema default, since the raw object lacks the
key), and the `receiveFile` event delivered to the receiver's room and the
sender's own room carries the raw payload {senderId, receiverId, fileData,
fileName, fileType, isFile: true, timestamp} with no `seen` field. -/
theorem C4_amended (st : ServerState) (uid rid fd fn ft : String) (ts : Nat)
    (h1 : rid ≠ "") (h2 : fd ≠ "") (h3 : fn ≠ "") (h4 : ft ≠ "") :
    handleSendFile st uid ts ⟨some rid, some fd, some fn, some ft⟩ true
      = Except.ok
          ({ st with
              store := saveSession st.store (sendFileStored st uid rid fd fn ft ts) },
           [(Target.room rid, ServerEvent.receiveFile (newMessage uid rid fd fn ft ts)),
            (Target.room uid, ServerEvent.receiveFile (newMessage uid rid fd fn ft ts))])
    ∧ (newMessage uid rid fd fn ft ts).seen = none
    ∧ (applySchemaDefault (newMessage uid rid fd fn ft ts)).seen = some false
    ∧ (sendFileStored st uid rid fd fn ft ts).messages.getLast?
        = some (applySchemaDefault (newMessage uid rid fd fn ft ts)) := by
  refine ⟨sendFile_success_eq st uid rid fd fn ft ts h1 h2 h3 h4, rfl, rfl, ?_⟩
  show (((findSession st.store (sortPair uid rid)).getD
      ⟨sortPair uid rid, []⟩).messages
      ++ [applySchemaDefault (newMessage uid rid fd fn ft ts)]).getLast? = _
  rw [List.getLast?_concat]

/-- Witness for C4_amended at concrete inputs. -/
theorem C4_amended_witness :
    ("b" : String) ≠ ""
    ∧ ("d" : String) ≠ ""
    ∧ ("f" : String) ≠ ""
    ∧ ("t" : String) ≠ ""
    ∧ (handleSendFile st0 "a" 5 ⟨some "b", some "d", some "f", some "t"⟩ true
        = Except.ok
            ({ st0 with
                store := saveSession st0.store (sendFileStored st0 "a" "b" "d" "f" "t" 5) },
             [(Target.room "b",
               ServerEvent.receiveFile (newMessage "a" "b" "d" "f" "t" 5)),
              (Target.room "a",
               ServerEvent.receiveFile (newMessage "a" "b" "d" "f" "t" 5))])
      ∧ (newMessage "a" "b" "d" "f" "t" 5).seen = none
      ∧ (applySchemaDefault (newMessage "a" "b" "d" "f" "t" 5)).seen = some false
      ∧ (sendFileStored st0 "a" "b" "d" "f" "t" 5).messages.getLast?
          = some (applySchemaDefault (newMessage "a" "b" "d" "f" "t" 5))) :=
  ⟨by decide, by decide, by decide, by decide,
   C4_amended st0 "a" "b" "d" "f" "t" 5 (by decide) (by decide) (by decide) (by decide)⟩

/-- C5: a failing persistence write aborts all fanout. When `session.save()`
fails in the sendFile flow, the catch at lines 143-145 only logs: nothing is
emitted, the store and the rest of the state are unchanged, and the
connection stays open; likewise a failing save in the markAsSeen flow (catch
at lines 163-165) emits no `messageSeen` and changes nothing. The hypothesis
keeps the sendFile payload away from the unrelated pre-validation throw of
line 114. -/
theorem C5_persistence_failure (st : ServerState) (uid : String) (ts : Nat)
    (p : SendFilePayload) (q : MarkAsSeenPayload) (fd : String)
    (h : p.fileData = some fd) :
    handleSendFile st uid ts p false = Except.ok (st, [])
    ∧ handleMarkAsSeen st uid q false = (st, []) := by
  constructor
  · unfold handleSendFile
    rw [h]
    cases hr : p.receiverId with
    | none => rfl
    | some rid =>
        cases hn : p.fileName with
        | none => rfl
        | some fn =>
            cases ht : p.fileType with
            | none => rfl
            | some ft =>
                by_cases hc : rid = "" ∨ fd = "" ∨ fn = "" ∨ ft = ""
                · simp [hc]
                · simp [hc]
  · simp only [handleMarkAsSeen]
    cases hs : findSession st.store (sortPair q.senderId uid) with
    | none => rfl
    | some session => rfl

/-- Witness for C5_persistence_failure at concrete inputs. -/
theorem C5_persistence_failure_witness :
    (SendFilePayload.mk (some "b") (some "d") (some "f") (some "t")).fileData
      = some "d"
    ∧ (handleSendFile st0 "a" 0 ⟨some "b", some "d", some "f", some "t"⟩ false
        = Except.ok (st0, [])
      ∧ handleMarkAsSeen st0 "a" ⟨"b"⟩ false = (st0, [])) :=
  ⟨rfl, C5_persistence_failure st0 "a" 0 ⟨some "b", some "d", some "f", some "t"⟩ ⟨"b"⟩ "d" rfl⟩

/-- C6: the markAsSeen flow flips `seen` exactly on the named sender's
not-yet-seen messages: a message from the sender with `seen = false` is
replaced by the same message with `seen = true`; an already-seen message and
a message from another sender are returned unchanged; and running the whole
flow twice produces the same final state as running it once (idempotent). -/
theorem C6_markSeen_exact (s : String) (m : Message) (st : ServerState)
    (uid sender : String) :
    (m.senderId = s → m.seen = some false →
      markSeenOne s m = { m with seen := some true })
    ∧ (m.seen = some true → markSeenOne s m = m)
    ∧ (m.senderId ≠ s → markSeenOne s m = m)
    ∧ (handleMarkAsSeen (handleMarkAsSeen st uid ⟨sender⟩ true).1 uid ⟨sender⟩ true).1
        = (handleMarkAsSeen st uid ⟨sender⟩ true).1 := by
  refine ⟨?_, ?_, ?_, ?_⟩
  · intro hsd hsn
    unfold markSeenOne
    rw [if_pos]
    exact ⟨hsd, by simp [seenTruthy, hsn]⟩
  · intro hsn
    unfold markSeenOne
    rw [if_neg]
    rintro ⟨-, hh⟩
    exact hh (by simp [seenTruthy, hsn])
  · intro hsd
    unfold markSeenOne
    rw [if_neg]
    rintro ⟨hh, -⟩
    exact hsd hh
  · cases hs : findSession st.store (sortPair sender uid) with
    | none => simp [handleMarkAsSeen, hs]
    | some session =>
        have hp : (markSeenSession sender session).participants
            = sortPair sender uid := by
          rw [markSeenSession_participants]
          exact findSession_participants hs
        have hfind :
            findSession (saveSession st.store (markSeenSession sender session))
              (sortPair sender uid) = some (markSeenSession sender session) := by
          rw [← hp]
          exact findSession_saveSession st.store (markSeenSession sender session)
        simp [handleMarkAsSeen, hs, hfind, markSeenSession_idem,
          saveSession_saveSession]

/-- Witness for C6_markSeen_exact at concrete inputs. -/
theorem C6_markSeen_exact_witness :
    markSeenOne "a" ⟨"a", "b", "d", "f", "t", true, 0, some false⟩
      = ⟨"a", "b", "d", "f", "t", true, 0, some true⟩
    ∧ markSeenOne "a" ⟨"a", "b", "d", "f", "t", true, 1, some true⟩
      = ⟨"a", "b", "d", "f", "t", true, 1, some true⟩
    ∧ markSeenOne "a" ⟨"c", "b", "d", "f", "t", true, 2, some false⟩
      = ⟨"c", "b", "d", "f", "t", true, 2, some false⟩
    ∧ (handleMarkAsSeen (handleMarkAsSeen st0 "b" ⟨"a"⟩ true).1 "b" ⟨"a"⟩ true).1
        = (handleMarkAsSeen st0 "b" ⟨"a"⟩ true).1 :=
  ⟨(C6_markSeen_exact "a" ⟨"a", "b", "d", "f", "t", true, 0, some false⟩
      st0 "b" "a").1 rfl rfl,
   (C6_markSeen_exact "a" ⟨"a", "b", "d", "f", "t", true, 1, some true⟩
      st0 "b" "a").2.1 rfl,
   (C6_markSeen_exact "a" ⟨"c", "b", "d", "f", "t", true, 2, some false⟩
      st0 "b" "a").2.2.1 (by decide),
   (C6_markSeen_exact "a" ⟨"a", "b", "d", "f", "t", true, 0, some false⟩
      st0 "b" "a").2.2.2⟩

/-- C7: pair canonicalisation is order-independent (the sorted pair for
(A, B) equals the one for (B, A)), and a sendFile from A to B followed by a
markAsSeen by B naming sender A addresses the same stored conversation: the
seen-flow lookup finds exactly the session the sendFile flow saved and emits
`messageSeen` for it. -/
theorem C7_pair_canonical (A B fd fn ft : String) (ts : Nat) (st : ServerState)
    (h1 : B ≠ "") (h2 : fd ≠ "") (h3 : fn ≠ "") (h4 : ft ≠ "") :
    sortPair A B = sortPair B A
    ∧ ∀ st' emits,
        handleSendFile st A ts ⟨some B, some fd, some fn, some ft⟩ true
          = Except.ok (st', emits) →
        findSession st'.store (sortPair A B)
            = some (sendFileStored st A B fd fn ft ts)
        ∧ (handleMarkAsSeen st' B ⟨A⟩ true).2
            = [(Target.room A, ServerEvent.messageSeen A B)] := by
  refine ⟨sortPair_comm A B, ?_⟩
  intro st' emits hok
  rw [sendFile_success_eq st A B fd fn ft ts h1 h2 h3 h4] at hok
  injection hok with hok
  injection hok with hst hem
  have hfind :
      findSession (saveSession st.store (sendFileStored st A B fd fn ft ts))
        (sortPair A B) = some (sendFileStored st A B fd fn ft ts) := by
    rw [← sendFileStored_participants st A B fd fn ft ts]
    exact findSession_saveSession st.store (sendFileStored st A B fd fn ft ts)
  rw [← hst]
  exact ⟨hfind, by simp [handleMarkAsSeen, hfind]⟩

/-- Witness for C7_pair_canonical at concrete inputs. -/
theorem C7_pair_canonical_witness :
    ("b" : String) ≠ ""
    ∧ ("d" : String) ≠ ""
    ∧ ("f" : String) ≠ ""
    ∧ ("t" : String) ≠ ""
    ∧ sortPair "a" "b" = sortPair "b" "a"
    ∧ (findSession
          (saveSession st0.store (sendFileStored st0 "a" "b" "d" "f" "t" 3))
          (sortPair "a" "b")
        = some (sendFileStored st0 "a" "b" "d" "f" "t" 3)
      ∧ (handleMarkAsSeen
          { st0 with
              store := saveSession st0.store (sendFileStored st0 "a" "b" "d" "f" "t" 3) }
          "b" ⟨"a"⟩ true).2
        = [(Target.room "a", ServerEvent.messageSeen "a" "b")]) :=
  ⟨by decide, by decide, by decide, by decide,
   (C7_pair_canonical "a" "b" "d" "f" "t" 3 st0
      (by decide) (by decide) (by decide) (by decide)).1,
   (C7_pair_canonical "a" "b" "d" "f" "t" 3 st0
      (by decide) (by decide) (by decide) (by decide)).2 _ _ rfl⟩

/-- C8: a connection whose token verification fails is closed with no event
emitted and no state change (the catch at lines 95-99 only logs and calls
`socket.disconnect()` before any handler is registered). A disconnect of
such an unbound socket changes no presence and broadcasts no `userOffline`
(the guard at line 170 sees `socket.userId` unset). Consequently, provided
the rejected identity was not online already, it does not appear in the
snapshot a subsequently connecting user receives. -/
theorem C8_auth_failure (st : ServerState) (sid sid2 : Nat) (e : AuthError)
    (uid other : String) (h1 : uid ∉ st.onlineUsers) (h2 : other ≠ uid) :
    handleConnection st sid (Except.error e) = (st, [])
    ∧ (handleDisconnect st ⟨sid, none⟩).1.onlineUsers = st.onlineUsers
    ∧ (handleDisconnect st ⟨sid, none⟩).2 = []
    ∧ uid ∉ setAdd st.onlineUsers other
    ∧ (handleConnection st sid2 (Except.ok other)).2
        = [(Target.all, ServerEvent.userOnline other),
           (Target.socket sid2,
            ServerEvent.onlineUsersSnapshot (setAdd st.onlineUsers other))] := by
  refine ⟨rfl, rfl, rfl, ?_, rfl⟩
  rw [mem_setAdd_iff]
  rintro (hm | hm)
  · exact h1 hm
  · exact h2 hm.symm

/-- Witness for C8_auth_failure at concrete inputs. -/
theorem C8_auth_failure_witness :
    ("x" : String) ∉ st0.onlineUsers
    ∧ ("a" : String) ≠ "x"
    ∧ (handleConnection st0 1 (Except.error AuthError.expired) = (st0, [])
      ∧ (handleDisconnect st0 ⟨1, none⟩).1.onlineUsers = st0.onlineUsers
      ∧ (handleDisconnect st0 ⟨1, none⟩).2 = []
      ∧ ("x" : String) ∉ setAdd st0.onlineUsers "a"
      ∧ (handleConnection st0 2 (Except.ok "a")).2
          = [(Target.all, ServerEvent.userOnline "a"),
             (Target.socket 2,
              ServerEvent.onlineUsersSnapshot (setAdd st0.onlineUsers "a"))]) :=
  ⟨by decide, by decide,
   C8_auth_failure st0 1 2 AuthError.expired "x" "a" (by decide) (by decide)⟩

/-- C9: a markAsSeen naming a sender with whom the caller has no stored
conversation is a no-op: `findOne` returns nothing (line 152), the `if` body
at lines 153-162 is skipped, so no session is created, nothing changes, no
`messageSeen` is emitted and no error is raised. -/
theorem C9_no_conversation (st : ServerState) (uid sender : String) (ok : Bool)
    (h : findSession st.store (sortPair sender uid) = none) :
    handleMarkAsSeen st uid ⟨sender⟩ ok = (st, []) := by
  simp [handleMarkAsSeen, h]

/-- Witness for C9_no_conversation at concrete inputs. -/
theorem C9_no_conversation_witness :
    findSession st0.store (sortPair "a" "b") = none
    ∧ handleMarkAsSeen st0 "b" ⟨"a"⟩ true = (st0, []) :=
  ⟨rfl, C9_no_conversation st0 "b" "a" true rfl⟩

/-- Inversion of the sendFile flow on a non-throwing run: either it was a
drop / failed-save (state unchanged, nothing emitted) or all four fields were
present and non-empty, the save succeeded, and the result is the success
state and the two `receiveFile` emissions. -/
theorem handleSendFile_inv (st : ServerState) (uid : String) (ts : Nat)
    (sp : SendFilePayload) (ok : Bool) (st' : ServerState)
    (emits : List Emitted)
    (h : handleSendFile st uid ts sp ok = Except.ok (st', emits)) :
    (st' = st ∧ emits = [])
    ∨ ∃ rid fd fn ft,
        sp = ⟨some rid, some fd, some fn, some ft⟩ ∧ ok = true
        ∧ st' = { st with
            store := saveSession st.store (sendFileStored st uid rid fd fn ft ts) }
        ∧ emits
          = [(Target.room rid, ServerEvent.receiveFile (newMessage uid rid fd fn ft ts)),
             (Target.room uid, ServerEvent.receiveFile (newMessage uid rid fd fn ft ts))] := by
  obtain ⟨ro, fo, f3, f4⟩ := sp
  cases fo with
  | none =>
      unfold handleSendFile at h
      dsimp only at h
      exact Except.noConfusion h
  | some fd =>
    cases ro with
    | none =>
        unfold handleSendFile at h
        dsimp only at h
        injection h with h'
        injection h' with ha hb
        exact Or.inl ⟨ha.symm, hb.symm⟩
    | some rid =>
      cases f3 with
      | none =>
          unfold handleSendFile at h
          dsimp only at h
          injection h with h'
          injection h' with ha hb
          exact Or.inl ⟨ha.symm, hb.symm⟩
      | some fn =>
        cases f4 with
        | none =>
            unfold handleSendFile at h
            dsimp only at h
            injection h with h'
            injection h' with ha hb
            exact Or.inl ⟨ha.symm, hb.symm⟩
        | some ft =>
            unfold handleSendFile at h
            dsimp only at h
            by_cases hc : rid = "" ∨ fd = "" ∨ fn = "" ∨ ft = ""
            · rw [if_pos hc] at h
              injection h with h'
              injection h' with ha hb
              exact Or.inl ⟨ha.symm, hb.symm⟩
            · rw [if_neg hc] at h
              cases ok with
              | false =>
                  rw [if_neg (by simp)] at h
                  injection h with h'
                  injection h' with ha hb
                  exact Or.inl ⟨ha.symm, hb.symm⟩
              | true =>
                  rw [if_pos rfl] at h
                  injection h with h'
                  injection h' with ha hb
                  exact Or.inr ⟨rid, fd, fn, ft, rfl, rfl, ha.symm, hb.symm⟩

/-- C10: the sender identity used everywhere is the one authenticated at
connection time, never a payload value: `typing` and `stopTyping` carry
`senderId = socket.userId`; `messageSeen` reports `receiverId =
socket.userId`; every `receiveFile` emitted by the sendFile flow carries the
bound identity as `senderId`; and every message the flow adds to the store
(any stored message not already present before the call) has the bound
identity as its sender. The payloads of `typing`, `stopTyping` and
`sendFile` contain no sender field the client could use to spoof. -/
theorem C10_sender_binding (st : ServerState) (uid : String) (sid ts : Nat)
    (ok : Bool) (tp : TypingPayload) (sp : SendFilePayload)
    (mp : MarkAsSeenPayload) (st' : ServerState) (emits : List Emitted)
    (h : handleSendFile st uid ts sp ok = Except.ok (st', emits)) :
    emitsSenderBound uid (handleTyping uid sid tp) = true
    ∧ emitsSenderBound uid (handleStopTyping uid sid tp) = true
    ∧ emitsSenderBound uid (handleMarkAsSeen st uid mp ok).2 = true
    ∧ emitsSenderBound uid emits = true
    ∧ ∀ m ∈ storeMessages st'.store,
        m ∈ storeMessages st.store ∨ m.senderId = uid := by
  have hcase := handleSendFile_inv st uid ts sp ok st' emits h
  refine ⟨?_, ?_, ?_, ?_, ?_⟩
  · simp [handleTyping, emitsSenderBound, eventSenderBound]
  · simp [handleStopTyping, emitsSenderBound, eventSenderBound]
  · simp only [handleMarkAsSeen]
    cases hs : findSession st.store (sortPair mp.senderId uid) with
    | none => rfl
    | some session =>
        cases ok with
        | false => rfl
        | true => simp [emitsSenderBound, eventSenderBound]
  · rcases hcase with ⟨-, he⟩ | ⟨rid, fd, fn, ft, -, -, -, he⟩
    · rw [he]
      rfl
    · rw [he]
      simp [emitsSenderBound, eventSenderBound, newMessage]
  · rcases hcase with ⟨hst, -⟩ | ⟨rid, fd, fn, ft, -, -, hst, -⟩
    · rw [hst]
      intro m hm
      exact Or.inl hm
    · rw [hst]
      intro m hm
      rcases mem_storeMessages_saveSession st.store
          (sendFileStored st uid rid fd fn ft ts) hm with h' | h'
      · exact Or.inl h'
      · rcases mem_sendFileStored_messages st uid rid fd fn ft ts h' with h'' | h''
        · exact Or.inl h''
        · right
          rw [h'']
          rfl

/-- Witness for C10_sender_binding at concrete inputs. -/
theorem C10_sender_binding_witness :
    handleSendFile st0 "a" 7 ⟨some "b", some "d", some "f", some "t"⟩ true
      = Except.ok
          ({ st0 with
              store := saveSession st0.store (sendFileStored st0 "a" "b" "d" "f" "t" 7) },
           [(Target.room "b", ServerEvent.receiveFile (newMessage "a" "b" "d" "f" "t" 7)),
            (Target.room "a", ServerEvent.receiveFile (newMessage "a" "b" "d" "f" "t" 7))])
    ∧ (emitsSenderBound "a" (handleTyping "a" 1 ⟨"b"⟩) = true
      ∧ emitsSenderBound "a" (handleStopTyping "a" 1 ⟨"b"⟩) = true
      ∧ emitsSenderBound "a" (handleMarkAsSeen st0 "a" ⟨"b"⟩ true).2 = true
      ∧ emitsSenderBound "a"
          [(Target.room "b", ServerEvent.receiveFile (newMessage "a" "b" "d" "f" "t" 7)),
           (Target.room "a", ServerEvent.receiveFile (newMessage "a" "b" "d" "f" "t" 7))]
          = true
      ∧ ∀ m ∈ storeMessages
            ({ st0 with
                store := saveSession st0.store
                  (sendFileStored st0 "a" "b" "d" "f" "t" 7) } : ServerState).store,
          m ∈ storeMessages st0.store ∨ m.senderId = "a") :=
  ⟨rfl,
   C10_sender_binding st0 "a" 1 7 true ⟨"b"⟩
     ⟨some "b", some "d", some "f", some "t"⟩ ⟨"b"⟩ _ _ rfl⟩

end Novara
